import Mathlib

/-!
Verification of the HawalaSend backend authentication core.

This file is a shallow embedding of the authentication core of the
HawalaSend backend (a Node/Express + PostgreSQL service) and proofs about
it.  The embedded code is:

* `src/utils/validators.js` — `validateEmail`, `validatePassword`;
* `src/controllers/authController.js` — `registerUser`, `loginUser`,
  `sanitizeUser` (the second, production-leaning variant of the file is
  taken as authoritative, as the spec's design notes direct; the error
  branches relevant here are textually identical in both variants);
* `src/models/User.js` — the `User` model (only `create` and
  `findByEmail` exist; there is no `findByPk`);
* the `users` table constraints from the migration in `src/errors.js`
  (UNIQUE on `email` and on `username`, `status` defaulting to
  `'active'`);
* `backend/middleware/authMiddleware.js` (embedded in `src/errors.js`) —
  rate limiting, bearer-token extraction, `jwt.verify` pinned to HS256,
  user resolution, identity attachment and near-expiry refresh.

Modelling conventions: JavaScript strings are `List Char`; the relevant
PostgreSQL queries are functions over an in-memory list of rows; bcrypt
and the JWT HMAC are perfect symbolic cryptography (a digest or signature
is an injective constructor application, so equality of digests coincides
with equality of preimages); wall-clock time is a `Nat` of Unix seconds
passed explicitly.  Store reads and writes are counted so that "touches
the store" is observable.  The jsonwebtoken library itself is not part of
the repository; its `verify` is modelled from the spec's Token
Issuer/Verifier contract (see `jwtVerify`).
-/

namespace HawalaSend

/-- JavaScript strings are modelled as lists of characters. -/
abbrev Str := List Char

/-- Whitespace as consumed by `String.prototype.trim` and matched by the
regex class `\s`, restricted to the ASCII whitespace actually relevant
here: space, tab, carriage return, newline. -/
def wsChar (c : Char) : Bool :=
  c == ' ' || c == '\t' || c == '\x0d' || c == '\n'

/-- `s.trim()`: remove leading and trailing whitespace. -/
def trimStr (s : Str) : Str :=
  ((s.dropWhile wsChar).reverse.dropWhile wsChar).reverse

/-- `s.toLowerCase()` (ASCII range, via the core `Char.toLower`). -/
def lowerStr (s : Str) : Str := s.map Char.toLower

/-- ASCII uppercase letter, the regex class `[A-Z]`. -/
def isAsciiUpper (c : Char) : Bool := 'A' ≤ c && c ≤ 'Z'

/-- ASCII digit, the regex class `[0-9]`. -/
def isAsciiDigit (c : Char) : Bool := '0' ≤ c && c ≤ '9'

/-- Split a character list at every occurrence of `sep`. -/
def splitOnChar (sep : Char) : Str → List Str
  | [] => [[]]
  | c :: cs =>
    match splitOnChar sep cs with
    | [] => if c = sep then [[], []] else [[c]]
    | h :: t => if c = sep then [] :: h :: t else (c :: h) :: t

/-- A character admitted by the regex class `[^\s@]`. -/
def emailAtomChar (c : Char) : Bool := !wsChar c && c != '@'

/-- The email regex `/^[^\s@]+@[^\s@]+\.[^\s@]+$/` used both by
`validateEmail` in `src/utils/validators.js` and inline in
`registerUser` (`src/controllers/authController.js`).  It matches
exactly when the string splits at a unique `@` into a nonempty local
part and a domain with no whitespace or `@` on either side, the domain
containing a dot that is neither its first nor its last character. -/
def emailRegexMatch (s : Str) : Bool :=
  match splitOnChar '@' s with
  | [l, d] =>
    !l.isEmpty && l.all emailAtomChar && d.all emailAtomChar &&
      ((d.drop 1).dropLast).contains '.'
  | _ => false

/-- `validateEmail` from `src/utils/validators.js`. -/
def validateEmail (email : Str) : Bool := emailRegexMatch email

/-- `validatePassword` from `src/utils/validators.js`. -/
def validatePassword (password : Str) : Bool := password.length ≥ 8

/-- The password complexity regex `/(?=.*[A-Z])(?=.*[0-9])/` from
`registerUser`: at least one uppercase letter and at least one digit. -/
def passwordComplexityOk (p : Str) : Bool :=
  p.any isAsciiUpper && p.any isAsciiDigit

/-- A row of the `users` table (the columns the auth core touches).
`status` defaults to `'active'` in the migration DDL. -/
structure UserRow where
  id : Nat
  email : Str
  username : Str
  password : Str
  role : Str
  created_at : Nat
  status : Str
deriving DecidableEq

/-- The `users` table, in insertion order (`SERIAL` ids are supplied by
the caller as `nextId`). -/
abbrev UserStore := List UserRow

/-- `LOWER(a) = LOWER(b)`, the case-insensitive SQL comparison. -/
def lowerEq (a b : Str) : Bool := lowerStr a == lowerStr b

/-- The registration duplicate check:
`SELECT id FROM users WHERE LOWER(email) = LOWER($1) OR LOWER(username) = LOWER($2)`. -/
def findByEmailOrUsernameCI (store : UserStore) (email username : Str) : List UserRow :=
  store.filter fun u => lowerEq u.email email || lowerEq u.username username

/-- The login lookup:
`SELECT * FROM users WHERE LOWER(email) = LOWER($1)`, taking `rows[0]`. -/
def findByEmailCI (store : UserStore) (email : Str) : Option UserRow :=
  (store.filter fun u => lowerEq u.email email).head?

/-- `User.findByEmail` from `src/models/User.js`:
`SELECT * FROM users WHERE email = $1` — an exact, case-sensitive
comparison — taking `rows[0]`. -/
def findByEmailExact (store : UserStore) (email : Str) : Option UserRow :=
  (store.filter fun u => u.email == email).head?

/-- The forgot-password lookup in `src/routes/auth.js`:
`SELECT id FROM users WHERE email = $1` with `email.toLowerCase().trim()`
as the parameter — exact comparison against a lowercased input. -/
def forgotPasswordLookup (store : UserStore) (email : Str) : Option UserRow :=
  findByEmailExact store (trimStr (lowerStr email))

/-- Lookup by primary key: `SELECT ... FROM users WHERE id = $1`. -/
def findById (store : UserStore) (id : Nat) : Option UserRow :=
  (store.filter fun u => u.id == id).head?

/-- A store-level failure surfaced to the application. -/
inductive DbError
  | uniqueViolation
deriving DecidableEq

/-- The row built by
`INSERT INTO users (email, password, username, role, created_at) VALUES ($1,$2,$3,$4,NOW())`;
`status` takes its DDL default `'active'`. -/
def mkUserRow (nextId : Nat) (email username passwordHash role : Str) (now : Nat) : UserRow :=
  ⟨nextId, email, username, passwordHash, role, now, "active".toList⟩

/-- The atomic insert.  The migration DDL declares `email VARCHAR UNIQUE`
and `username VARCHAR UNIQUE`, so an insert whose email or username
exactly equals a stored one raises a uniqueness violation and commits
nothing; otherwise the row is appended and returned (`RETURNING ...`). -/
def insertUser (store : UserStore) (nextId : Nat) (email username passwordHash role : Str)
    (now : Nat) : Except DbError (UserStore × UserRow) :=
  if store.any (fun u => u.email == email || u.username == username) then
    .error .uniqueViolation
  else
    .ok (store ++ [mkUserRow nextId email username passwordHash role now],
         mkUserRow nextId email username passwordHash role now)

/-- Symbolic bcrypt: `bcrypt.hash(p, SALT_ROUNDS)` as a perfect one-way
function (the cost factor does not affect functional behaviour). -/
def bcryptHash (plaintext : Str) : Str := '#' :: plaintext

/-- Symbolic `bcrypt.compare(plaintext, digest)`: true exactly when the
digest is the hash of the plaintext. -/
def bcryptCompare (plaintext digest : Str) : Bool := digest == bcryptHash plaintext

/-- The fixed decoy digest `'$2b$12$fakehashfor.timing.attack.prevention'`
compared against in `loginUser` when no user row matches.  It is not the
bcrypt hash of any plaintext in the symbolic model (it does not start
with the hash constructor), so comparing against it always fails. -/
def decoyDigest : Str := "$2b$12$fakehashfor.timing.attack.prevention".toList

/-- JWT signing algorithms that can appear in a token header. -/
inductive Alg
  | HS256
  | HS512
  | noneAlg
deriving DecidableEq

/-- The claim set carried by a token.  `jsonwebtoken` adds `iat` and
`exp`; the application payloads here carry `id` always and `email`,
`role` optionally. -/
structure Claims where
  id : Nat
  email : Option Str
  role : Option Str
  iat : Nat
  exp : Nat
deriving DecidableEq

/-- A symbolic HMAC signature: perfect cryptography, so a signature is
exactly the triple it was computed over and verification is equality. -/
structure Sig where
  secret : Str
  alg : Alg
  claims : Claims
deriving DecidableEq

/-- A structurally well-formed JWT. -/
structure Token where
  alg : Alg
  claims : Claims
  sig : Sig
deriving DecidableEq

/-- An application payload passed to `jwt.sign`. -/
structure JwtPayload where
  id : Nat
  email : Option Str
  role : Option Str
deriving DecidableEq

/-- The process-wide signing secret `process.env.JWT_SECRET`, loaded once
at startup and shared by the auth controller and the middleware. -/
def JWT_SECRET : Str := "process.env.JWT_SECRET".toList

/-- `jwt.sign(payload, secret, { expiresIn, algorithm })`: stamps `iat`
with the current time, `exp` with the current time plus the ttl, and
signs the resulting claim set with the given secret and algorithm.
`JWT_EXPIRES_IN` defaults to `'1h'`, i.e. 3600 seconds. -/
def jwtSign (payload : JwtPayload) (secret : Str) (expiresInSecs : Nat) (alg : Alg)
    (now : Nat) : Token :=
  { alg := alg
    claims := ⟨payload.id, payload.email, payload.role, now, now + expiresInSecs⟩
    sig := ⟨secret, alg, ⟨payload.id, payload.email, payload.role, now, now + expiresInSecs⟩⟩ }

/-- The two error classes thrown by `jsonwebtoken.verify`. -/
inductive VerifyError
  | tokenExpired
  | jsonWebTokenError
deriving DecidableEq

/-- A presented bearer credential: either a blob that does not even
decode as a JWT, or a structurally well-formed token. -/
inductive Cred
  | malformedBlob
  | tok (t : Token)
deriving DecidableEq

/-- Modelled from the spec: `jsonwebtoken.verify` is a library external to
this repository, so its semantics are taken from the spec's Token
Issuer/Verifier contract (section 4.2): the verifier accepts only the
algorithms in the explicit allowlist passed by the caller — the `alg`
field embedded in the token is checked against that list, never trusted
to select the algorithm — then checks the signature against the server
secret, failing with `JsonWebTokenError` on any structural or signature
failure, fails with `TokenExpiredError` when now is past `exp`, and
otherwise returns the claim set. -/
def jwtVerify (c : Cred) (secret : Str) (allowed : List Alg) (now : Nat) :
    Except VerifyError Claims :=
  match c with
  | .malformedBlob => .error .jsonWebTokenError
  | .tok t =>
    if t.alg ∉ allowed then .error .jsonWebTokenError
    else if t.sig ≠ (⟨secret, t.alg, t.claims⟩ : Sig) then .error .jsonWebTokenError
    else if t.claims.exp < now then .error .tokenExpired
    else .ok t.claims

/-- An error payload `{ error, code }` returned by the auth controller. -/
structure ApiError where
  error : Str
  code : Str
deriving DecidableEq

/-- The public user projection produced by `sanitizeUser`: its fields are
exactly `id`, `email`, `username`, `role`, `created_at` — there is no
password field in this structure. -/
structure SanitizedUser where
  id : Nat
  email : Str
  username : Str
  role : Str
  created_at : Nat
deriving DecidableEq

/-- `sanitizeUser` from `src/controllers/authController.js`. -/
def sanitizeUser (u : UserRow) : SanitizedUser :=
  ⟨u.id, u.email, u.username, u.role, u.created_at⟩

/-- A registration request body `{ email, password, username }`. -/
structure RegisterRequest where
  email : Str
  password : Str
  username : Str
deriving DecidableEq

/-- A login request body `{ email, password }`. -/
structure LoginRequest where
  email : Str
  password : Str
deriving DecidableEq

/-- A JSON response body from the auth endpoints: an error payload, or a
success payload `{ message, user, token }`. -/
inductive ResponseBody
  | err (e : ApiError)
  | ok (message : Str) (user : SanitizedUser) (token : Token)
deriving DecidableEq

/-- Whether a response body is an error payload. -/
def ResponseBody.isErr : ResponseBody → Bool
  | .err _ => true
  | .ok _ _ _ => false

/-- The 409 payload `{ error: 'Email or username already in use', code: 'USER_EXISTS' }` —
a single constant used for both email and username collisions. -/
def USER_EXISTS_BODY : ApiError :=
  ⟨"Email or username already in use".toList, "USER_EXISTS".toList⟩

/-- The 401 payload `{ error: 'Invalid email or password', code: 'INVALID_CREDENTIALS' }` —
a single constant `errorResponse` shared by the missing-user and
wrong-password branches of `loginUser`. -/
def INVALID_CREDENTIALS_BODY : ApiError :=
  ⟨"Invalid email or password".toList, "INVALID_CREDENTIALS".toList⟩

/-- The 500 payload returned by `registerUser` when the insert throws. -/
def REGISTRATION_FAILED_BODY : ApiError :=
  ⟨"Registration failed. Please try again.".toList, "REGISTRATION_FAILED".toList⟩

/-- Outcome of a `registerUser` call: HTTP status, JSON body, the store
after the call, and how many store operations were performed (the
duplicate-check query counts one, the insert a second). -/
structure RegisterOutcome where
  status : Nat
  body : ResponseBody
  store : UserStore
  storeAccesses : Nat
deriving DecidableEq

/-- `registerUser` from `src/controllers/authController.js`, with the
duplicate-check phase and the insert phase given separate store
arguments so that a concurrent interleaving (another registration
committing between the check and the insert) is expressible.  The
sequential call is `registerUser` below, where both phases see the same
store.

Control flow of the source: trim email and username; reject with 400
`MISSING_FIELDS` when any field is empty (falsy); 400 `INVALID_EMAIL`
when the trimmed email fails the email regex; 400 `PASSWORD_TOO_SHORT`
when the password is shorter than `PASSWORD_MIN_LENGTH = 8`; 400
`PASSWORD_WEAK` when it lacks a digit or an uppercase letter; 409
`USER_EXISTS` when the case-insensitive duplicate-check query finds a
row; otherwise hash the password, `INSERT` the lowercased trimmed email,
the trimmed username, the hash and role `'user'` inside a transaction,
sign a token over `{ id, email, role }` with HS256 and a 1h ttl, and
respond 201 with the sanitized user and the token.  When the insert
throws (e.g. the store's uniqueness constraint fires), the transaction
is rolled back, the error is rethrown, and the outer handler responds
500 `REGISTRATION_FAILED`. -/
def registerPhases (req : RegisterRequest) (storeAtCheck storeAtInsert : UserStore)
    (nextId now : Nat) : RegisterOutcome :=
  if (trimStr req.email).isEmpty || req.password.isEmpty || (trimStr req.username).isEmpty then
    ⟨400, .err ⟨"All fields are required".toList, "MISSING_FIELDS".toList⟩, storeAtInsert, 0⟩
  else if !emailRegexMatch (trimStr req.email) then
    ⟨400, .err ⟨"Invalid email format".toList, "INVALID_EMAIL".toList⟩, storeAtInsert, 0⟩
  else if req.password.length < 8 then
    ⟨400, .err ⟨"Password must be at least 8 characters".toList, "PASSWORD_TOO_SHORT".toList⟩,
      storeAtInsert, 0⟩
  else if !passwordComplexityOk req.password then
    ⟨400, .err ⟨"Password must contain at least 1 number and 1 uppercase letter".toList,
      "PASSWORD_WEAK".toList⟩, storeAtInsert, 0⟩
  else if !(findByEmailOrUsernameCI storeAtCheck (trimStr req.email) (trimStr req.username)).isEmpty then
    ⟨409, .err USER_EXISTS_BODY, storeAtInsert, 1⟩
  else
    match insertUser storeAtInsert nextId (lowerStr (trimStr req.email)) (trimStr req.username)
        (bcryptHash req.password) ("user".toList) now with
    | .error _ => ⟨500, .err REGISTRATION_FAILED_BODY, storeAtInsert, 2⟩
    | .ok (store', row) =>
      ⟨201,
       .ok ("User registered successfully".toList) (sanitizeUser row)
         (jwtSign ⟨row.id, some row.email, some row.role⟩ JWT_SECRET 3600 Alg.HS256 now),
       store', 2⟩

/-- `registerUser` run sequentially: check and insert see the same store. -/
def registerUser (req : RegisterRequest) (store : UserStore) (nextId now : Nat) :
    RegisterOutcome :=
  registerPhases req store store nextId now

/-- Outcome of a `loginUser` call: HTTP status, JSON body, every
`(plaintext, digest)` pair passed to `bcrypt.compare`, and the number of
store operations performed. -/
structure LoginOutcome where
  status : Nat
  body : ResponseBody
  compareCalls : List (Str × Str)
  storeAccesses : Nat
deriving DecidableEq

/-- `loginUser` from `src/controllers/authController.js`: reject with 400
`MISSING_CREDENTIALS` when email or password is empty (falsy) before any
store access; look the user up case-insensitively by trimmed email; when
no row matches, run `bcrypt.compare` against the fixed decoy digest and
respond 401 with the shared `errorResponse`; when a row matches but the
password comparison fails, respond 401 with the same `errorResponse`;
otherwise sign a token over `{ id, email, role }` with HS256 and a 1h
ttl and respond 200 with the sanitized user and the token. -/
def loginUser (req : LoginRequest) (store : UserStore) (now : Nat) : LoginOutcome :=
  if req.email.isEmpty || req.password.isEmpty then
    ⟨400, .err ⟨"Email and password are required".toList, "MISSING_CREDENTIALS".toList⟩, [], 0⟩
  else
    match findByEmailCI store (trimStr req.email) with
    | none =>
      ⟨401, .err INVALID_CREDENTIALS_BODY, [(req.password, decoyDigest)], 1⟩
    | some user =>
      if !bcryptCompare req.password user.password then
        ⟨401, .err INVALID_CREDENTIALS_BODY, [(req.password, user.password)], 1⟩
      else
        ⟨200,
         .ok ("Login successful".toList) (sanitizeUser user)
           (jwtSign ⟨user.id, some user.email, some user.role⟩ JWT_SECRET 3600 Alg.HS256 now),
         [(req.password, user.password)], 1⟩

/-- Whether the `User` model exposes `findByPk`.  `src/models/User.js`
defines only `create` and `findByEmail`, so it does not: the middleware
call `User.findByPk(...)` raises
`TypeError: User.findByPk is not a function`. -/
def userModelHasFindByPk : Bool := false

/-- The exceptions that can reach the middleware's catch block. -/
inductive AuthException
  | tokenExpired
  | jsonWebTokenError
  | notActive
  | typeErrorFindByPk
deriving DecidableEq

/-- The identity the middleware attaches to `req.user` (the
`permissions` field of the source is `undefined` on these rows and is
omitted). -/
structure AttachedUser where
  id : Nat
  role : Str
  email : Str
deriving DecidableEq

/-- The observable result of running the auth middleware on a request. -/
inductive GuardResult
  | rateLimited
  | errorResp (status : Nat) (code message : Str)
  | proceed (reqUser : AttachedUser) (refresh : Option Token)
deriving DecidableEq

/-- Whether the middleware called `next()` with an identity attached. -/
def GuardResult.isProceed : GuardResult → Bool
  | .proceed _ _ => true
  | _ => false

/-- The state of the Authorization header of a request: absent, present
but not of the form `Bearer <token>`, or a bearer credential. -/
inductive AuthHeader
  | missing
  | notBearer
  | bearer (c : Cred)
deriving DecidableEq

/-- The middleware's verification call:
`jwt.verify(token, JWT_SECRET, { algorithms: ['HS256'], ignoreExpiration: false })` —
the algorithm list is pinned explicitly to HS256. -/
def verifyTokenPinned (c : Cred) (now : Nat) : Except VerifyError Claims :=
  jwtVerify c JWT_SECRET [Alg.HS256] now

/-- The near-expiry replacement token the middleware signs:
`jwt.sign({ id: user.id }, JWT_SECRET, { expiresIn: '1h' })` — the
payload carries only the id, neither role nor email. -/
def refreshToken (userId : Nat) (now : Nat) : Token :=
  jwtSign ⟨userId, none, none⟩ JWT_SECRET 3600 Alg.HS256 now

/-- The `try` block of the middleware, steps 3–6: verify the token,
resolve the user by the id claim via `User.findByPk`, require an active
user, attach `{ id, role, email }`, and when less than 600 seconds of
token lifetime remain attach a replacement token.  Because the `User`
model has no `findByPk` (see `userModelHasFindByPk`), the resolution
step raises a `TypeError` on every path that reaches it. -/
def guardTry (c : Cred) (store : UserStore) (now : Nat) : Except AuthException GuardResult :=
  match verifyTokenPinned c now with
  | .error .tokenExpired => .error .tokenExpired
  | .error .jsonWebTokenError => .error .jsonWebTokenError
  | .ok decoded =>
    if userModelHasFindByPk then
      match findById store decoded.id with
      | none => .error .notActive
      | some user =>
        if user.status ≠ "active".toList then .error .notActive
        else
          .ok (.proceed ⟨user.id, user.role, user.email⟩
            (if decoded.exp - now < 600 then some (refreshToken user.id now) else none))
    else .error .typeErrorFindByPk

/-- The middleware's catch block: `TokenExpiredError` maps to 401
`TOKEN_EXPIRED`; `JsonWebTokenError` to 401 `MALFORMED_TOKEN`; an error
whose message contains `'not active'` to 403 `USER_INACTIVE`; anything
else — including the `TypeError` from the missing `findByPk`, whose
message does not contain `'not active'` — to the 401 `INVALID_TOKEN`
default. -/
def classifyCatch : AuthException → GuardResult
  | .tokenExpired =>
    .errorResp 401 ("TOKEN_EXPIRED".toList) ("Session expired. Please login again.".toList)
  | .jsonWebTokenError =>
    .errorResp 401 ("MALFORMED_TOKEN".toList) ("Invalid or expired token".toList)
  | .notActive =>
    .errorResp 403 ("USER_INACTIVE".toList) ("Account deactivated".toList)
  | .typeErrorFindByPk =>
    .errorResp 401 ("INVALID_TOKEN".toList) ("Invalid or expired token".toList)

/-- `authMiddleware` from `backend/middleware/authMiddleware.js`: rate
limit, extract the bearer token (absent or non-Bearer headers fail with
401 `MISSING_TOKEN`), then run the `try` block and map any exception
through the catch block. -/
def authMiddleware (rateLimited : Bool) (header : AuthHeader) (store : UserStore)
    (now : Nat) : GuardResult :=
  if rateLimited then .rateLimited
  else
    match header with
    | .missing => .errorResp 401 ("MISSING_TOKEN".toList) ("Authorization token required".toList)
    | .notBearer => .errorResp 401 ("MISSING_TOKEN".toList) ("Authorization token required".toList)
    | .bearer c =>
      match guardTry c store now with
      | .ok r => r
      | .error e => classifyCatch e

/-- The conjunction of the four validation guards of `registerUser`, in
source order; a request passes them exactly when it reaches the
duplicate check. -/
def regValid (req : RegisterRequest) : Bool :=
  !((trimStr req.email).isEmpty || req.password.isEmpty || (trimStr req.username).isEmpty) &&
  emailRegexMatch (trimStr req.email) &&
  !decide (req.password.length < 8) &&
  passwordComplexityOk req.password

/-- The validation-failure condition of claim C4, read off the spec's
Validate step: the (trimmed) email fails the standard address pattern,
or the username or password is empty after trimming, or the password is
shorter than 8 characters, or it lacks a digit or an uppercase
letter. -/
def specInvalidInput (req : RegisterRequest) : Prop :=
  emailRegexMatch (trimStr req.email) = false ∨
  trimStr req.username = [] ∨
  trimStr req.password = [] ∨
  req.password.length < 8 ∨
  req.password.any isAsciiDigit = false ∨
  req.password.any isAsciiUpper = false

instance (req : RegisterRequest) : Decidable (specInvalidInput req) := by
  unfold specInvalidInput
  infer_instance

/-- The row a successful `registerUser` inserts: lowercased trimmed
email, trimmed username, the bcrypt digest, role `'user'`. -/
def insertedRow (req : RegisterRequest) (nextId now : Nat) : UserRow :=
  mkUserRow nextId (lowerStr (trimStr req.email)) (trimStr req.username)
    (bcryptHash req.password) ("user".toList) now

/-! ### Concrete fixtures used by witnesses and counterexamples -/

/-- A valid registration request for alice. -/
def regReq1 : RegisterRequest := ⟨"a@x.com".toList, "Passw0rd1".toList, "alice".toList⟩

/-- A second valid registration request whose email differs from
`regReq1` only in case and padding, with a fresh username. -/
def regReq2 : RegisterRequest := ⟨" A@X.com ".toList, "Passw0rd1".toList, "bob".toList⟩

/-- A third valid registration request whose username differs from
`regReq1`'s only in letter case while its email is distinct. -/
def regReq3 : RegisterRequest := ⟨"b@y.com".toList, "Passw0rd1".toList, "ALICE".toList⟩

/-- The row created by registering `regReq1` into an empty store. -/
def aliceRow : UserRow :=
  ⟨1, "a@x.com".toList, "alice".toList, bcryptHash ("Passw0rd1".toList),
   "user".toList, 0, "active".toList⟩

/-- A store holding exactly alice. -/
def aliceStore : UserStore := [aliceRow]

/-- A correctly signed, unexpired HS256 token for alice. -/
def aliceToken : Token :=
  jwtSign ⟨1, some ("a@x.com".toList), some ("user".toList)⟩ JWT_SECRET 3600 Alg.HS256 0

/-! ### Helper lemmas -/

theorem charOfNat_toNat {n : Nat} (h : n.isValidChar) : (Char.ofNat n).toNat = n := by
  rw [Char.ofNat, dif_pos h]; rfl

theorem charToLower_view (c : Char) : Char.toLower c =
    if c.toNat ≥ 65 ∧ c.toNat ≤ 90 then Char.ofNat (c.toNat + 32) else c := rfl

theorem charToLower_idem (c : Char) : Char.toLower (Char.toLower c) = Char.toLower c := by
  rw [charToLower_view c]
  by_cases h : c.toNat ≥ 65 ∧ c.toNat ≤ 90
  · rw [if_pos h, charToLower_view]
    have hv : (c.toNat + 32).isValidChar := by
      unfold Nat.isValidChar
      left
      omega
    rw [charOfNat_toNat hv]
    rw [if_neg (by omega)]
  · rw [if_neg h, charToLower_view, if_neg h]

theorem lowerStr_idem (s : Str) : lowerStr (lowerStr s) = lowerStr s := by
  induction s with
  | nil => rfl
  | cons c cs ih =>
    show Char.toLower (Char.toLower c) :: lowerStr (lowerStr cs)
        = Char.toLower c :: lowerStr cs
    rw [charToLower_idem, ih]

theorem trim_ne_nil {s : Str} {c : Char} (hc : c ∈ s) (hw : wsChar c = false) :
    trimStr s ≠ [] := by
  unfold trimStr
  intro h
  have h2 : (s.dropWhile wsChar).reverse.dropWhile wsChar = [] := by
    simpa using h
  rw [List.dropWhile_eq_nil_iff] at h2
  have hmem : c ∈ s.dropWhile wsChar := by
    have hsplit := List.takeWhile_append_dropWhile wsChar s
    rcases List.mem_append.mp (by rw [hsplit]; exact hc) with h3 | h3
    · have := List.mem_takeWhile_imp h3
      simp [hw] at this
    · exact h3
  have := h2 c (List.mem_reverse.mpr hmem)
  simp [hw] at this

theorem digit_not_ws {c : Char} (h : isAsciiDigit c = true) : wsChar c = false := by
  cases hw : wsChar c with
  | false => rfl
  | true =>
    exfalso
    unfold wsChar at hw
    rcases Bool.or_eq_true_iff.mp hw with h1 | h1
    · rcases Bool.or_eq_true_iff.mp h1 with h2 | h2
      · rcases Bool.or_eq_true_iff.mp h2 with h3 | h3
        · rw [show c = ' ' from beq_iff_eq.mp h3] at h
          exact absurd h (by decide)
        · rw [show c = '\t' from beq_iff_eq.mp h3] at h
          exact absurd h (by decide)
      · rw [show c = '\x0d' from beq_iff_eq.mp h2] at h
        exact absurd h (by decide)
    · rw [show c = '\n' from beq_iff_eq.mp h1] at h
      exact absurd h (by decide)

theorem complexity_trim_ne_nil {p : Str} (h : passwordComplexityOk p = true) :
    trimStr p ≠ [] := by
  unfold passwordComplexityOk at h
  rcases Bool.and_eq_true_iff.mp h with ⟨_, hdig⟩
  rcases List.any_eq_true.mp hdig with ⟨c, hc, hdc⟩
  exact trim_ne_nil hc (digit_not_ws hdc)

theorem isEmpty_false_of_ne {α : Type} {l : List α} (h : l ≠ []) : l.isEmpty = false := by
  cases l with
  | nil => exact absurd rfl h
  | cons c cs => rfl

theorem bool_false_of_not_true {b : Bool} (h : ¬(b = true)) : b = false := by
  cases b with
  | false => rfl
  | true => exact absurd rfl h

/-- A request passing the four validation guards reaches the duplicate
check: `registerPhases` reduces to its store-touching tail. -/
theorem register_valid_unfold {req : RegisterRequest} (h : regValid req = true)
    (storeC storeI : UserStore) (nid now : Nat) :
    registerPhases req storeC storeI nid now =
      (if !(findByEmailOrUsernameCI storeC (trimStr req.email) (trimStr req.username)).isEmpty then
        ⟨409, .err USER_EXISTS_BODY, storeI, 1⟩
      else
        match insertUser storeI nid (lowerStr (trimStr req.email)) (trimStr req.username)
            (bcryptHash req.password) ("user".toList) now with
        | .error _ => ⟨500, .err REGISTRATION_FAILED_BODY, storeI, 2⟩
        | .ok (store', row) =>
          ⟨201,
           .ok ("User registered successfully".toList) (sanitizeUser row)
             (jwtSign ⟨row.id, some row.email, some row.role⟩ JWT_SECRET 3600 Alg.HS256 now),
           store', 2⟩) := by
  unfold regValid at h
  rcases Bool.and_eq_true_iff.mp h with ⟨h123, h4⟩
  rcases Bool.and_eq_true_iff.mp h123 with ⟨h12, h3⟩
  rcases Bool.and_eq_true_iff.mp h12 with ⟨h1, h2⟩
  have hc1 : ((trimStr req.email).isEmpty || req.password.isEmpty ||
      (trimStr req.username).isEmpty) = false := by
    cases hb : ((trimStr req.email).isEmpty || req.password.isEmpty ||
        (trimStr req.username).isEmpty) with
    | false => rfl
    | true => rw [hb] at h1; exact absurd h1 (by decide)
  have hc3 : ¬(req.password.length < 8) := by
    intro hlt
    rw [decide_eq_true hlt] at h3
    exact absurd h3 (by decide)
  unfold registerPhases
  rw [if_neg (by simp [hc1]), if_neg (by simp [h2]), if_neg hc3, if_neg (by simp [h4])]

/-- A 201 from `registerUser` determines the whole outcome: the inserted
row, the success body, the signed token, and the appended store. -/
theorem register_success_eq {req : RegisterRequest} {store : UserStore} {nid now : Nat}
    (h : (registerUser req store nid now).status = 201) :
    registerUser req store nid now =
      ⟨201,
       .ok ("User registered successfully".toList) (sanitizeUser (insertedRow req nid now))
         (jwtSign ⟨(insertedRow req nid now).id, some (insertedRow req nid now).email,
            some (insertedRow req nid now).role⟩ JWT_SECRET 3600 Alg.HS256 now),
       store ++ [insertedRow req nid now], 2⟩ := by
  unfold registerUser registerPhases at h ⊢
  split_ifs at h ⊢
  · simp at h
  · simp at h
  · simp at h
  · simp at h
  · simp at h
  · revert h
    cases hins : insertUser store nid (lowerStr (trimStr req.email)) (trimStr req.username)
        (bcryptHash req.password) ("user".toList) now with
    | error e => intro h; simp at h
    | ok p =>
      intro _
      obtain ⟨s', row⟩ := p
      unfold insertUser at hins
      split_ifs at hins with gcol
      all_goals simp only [Except.ok.injEq, Prod.mk.injEq] at hins
      obtain ⟨hs, hr⟩ := hins
      subst hs
      subst hr
      rfl

/-- Every `registerUser` outcome is a 201 or carries an error body. -/
theorem register_status_or_err (req : RegisterRequest) (store : UserStore) (nid now : Nat) :
    (registerUser req store nid now).status = 201 ∨
    (registerUser req store nid now).body.isErr = true := by
  unfold registerUser registerPhases
  split_ifs
  · right; rfl
  · right; rfl
  · right; rfl
  · right; rfl
  · right; rfl
  · cases hins : insertUser store nid (lowerStr (trimStr req.email)) (trimStr req.username)
        (bcryptHash req.password) ("user".toList) now with
    | error e => right; rfl
    | ok p =>
      obtain ⟨s', row⟩ := p
      left; rfl

/-- An `ok` body from `registerUser` implies a 201 status. -/
theorem register_ok_of_body {req : RegisterRequest} {store : UserStore} {nid now : Nat}
    {m : Str} {u : SanitizedUser} {tok : Token}
    (h : (registerUser req store nid now).body = .ok m u tok) :
    (registerUser req store nid now).status = 201 := by
  rcases register_status_or_err req store nid now with h201 | herr
  · exact h201
  · rw [h] at herr
    exact absurd herr (by simp [ResponseBody.isErr])

/-- The middleware's try block always raises: token verification failures
raise, and every verified token reaches the missing `User.findByPk` and
raises the `TypeError`. -/
theorem guardTry_errs (c : Cred) (store : UserStore) (now : Nat) :
    ∃ e, guardTry c store now = .error e := by
  unfold guardTry
  cases hv : verifyTokenPinned c now with
  | error ve => cases ve <;> exact ⟨_, rfl⟩
  | ok decoded => exact ⟨.typeErrorFindByPk, rfl⟩

/-- A request that passes the four in-code validation guards satisfies
none of the spec's validation-failure conditions. -/
theorem not_specInvalid_of_guards {req : RegisterRequest}
    (g1 : ¬(((trimStr req.email).isEmpty || req.password.isEmpty ||
        (trimStr req.username).isEmpty) = true))
    (g2 : ¬((!emailRegexMatch (trimStr req.email)) = true))
    (g3 : ¬(req.password.length < 8))
    (g4 : ¬((!passwordComplexityOk req.password) = true)) :
    ¬ specInvalidInput req := by
  intro h
  have hg1 := bool_false_of_not_true g1
  have hg2 : emailRegexMatch (trimStr req.email) = true := by
    have := bool_false_of_not_true g2
    cases hb : emailRegexMatch (trimStr req.email) with
    | true => rfl
    | false => rw [hb] at this; exact absurd this (by decide)
  have hg4 : passwordComplexityOk req.password = true := by
    have := bool_false_of_not_true g4
    cases hb : passwordComplexityOk req.password with
    | true => rfl
    | false => rw [hb] at this; exact absurd this (by decide)
  rcases Bool.or_eq_false_iff.mp hg1 with ⟨hg1a, hg1u⟩
  rcases Bool.or_eq_false_iff.mp hg1a with ⟨_, _⟩
  rcases h with h | h | h | h | h | h
  · rw [hg2] at h; exact absurd h (by decide)
  · rw [h] at hg1u; exact absurd hg1u (by decide)
  · exact complexity_trim_ne_nil hg4 h
  · exact g3 h
  · have := (Bool.and_eq_true_iff.mp hg4).2
    rw [h] at this; exact absurd this (by decide)
  · have := (Bool.and_eq_true_iff.mp hg4).1
    rw [h] at this; exact absurd this (by decide)

/-! ### Claim theorems -/

/-- Claim C2: for every login request carrying a non-existent email and
every login request carrying an existing email with a wrong password,
`loginUser` returns the same failure: status 401 and the single shared
`errorResponse` constant `INVALID_CREDENTIALS_BODY` — byte-identical
error payloads in both cases. -/
theorem C2_login_indistinguishable_failures
    (req : LoginRequest) (store : UserStore) (now : Nat)
    (hemail : req.email ≠ []) (hpw : req.password ≠ []) :
    (findByEmailCI store (trimStr req.email) = none →
      (loginUser req store now).status = 401 ∧
      (loginUser req store now).body = .err INVALID_CREDENTIALS_BODY) ∧
    (∀ u, findByEmailCI store (trimStr req.email) = some u →
      bcryptCompare req.password u.password = false →
      (loginUser req store now).status = 401 ∧
      (loginUser req store now).body = .err INVALID_CREDENTIALS_BODY) := by
  have hguard : (req.email.isEmpty || req.password.isEmpty) = false := by
    rw [isEmpty_false_of_ne hemail, isEmpty_false_of_ne hpw]
    rfl
  constructor
  · intro hfind
    unfold loginUser
    rw [if_neg (by simp [hguard])]
    simp [hfind]
  · intro u hfind hcmp
    unfold loginUser
    rw [if_neg (by simp [hguard])]
    simp only [hfind]
    rw [if_pos (by rw [hcmp]; rfl)]
    simp

/-- Claim C2 witness: at a concrete store holding alice, a login with an
unknown email and a login with alice's email and a wrong password both
produce status 401 and the same error payload. -/
theorem C2_login_indistinguishable_failures_witness :
    ((loginUser ⟨"b@x.com".toList, "wrong".toList⟩ aliceStore 0).status = 401 ∧
     (loginUser ⟨"b@x.com".toList, "wrong".toList⟩ aliceStore 0).body
        = .err INVALID_CREDENTIALS_BODY) ∧
    ((loginUser ⟨"a@x.com".toList, "wrong".toList⟩ aliceStore 0).status = 401 ∧
     (loginUser ⟨"a@x.com".toList, "wrong".toList⟩ aliceStore 0).body
        = .err INVALID_CREDENTIALS_BODY) := by
  have h1 := C2_login_indistinguishable_failures ⟨"b@x.com".toList, "wrong".toList⟩
    aliceStore 0 (by decide) (by decide)
  have h2 := C2_login_indistinguishable_failures ⟨"a@x.com".toList, "wrong".toList⟩
    aliceStore 0 (by decide) (by decide)
  exact ⟨h1.1 (by decide), h2.2 aliceRow (by decide) (by decide)⟩

/-- Claim C3: when the login lookup finds no user, `loginUser` still runs
`bcrypt.compare` against the fixed precomputed decoy digest before
returning; when a user is found, the compare runs against the stored
digest — so the verify step executes on the missing-user path and on the
wrong-password path alike. -/
theorem C3_decoy_compare_always_runs
    (req : LoginRequest) (store : UserStore) (now : Nat)
    (hemail : req.email ≠ []) (hpw : req.password ≠ []) :
    (findByEmailCI store (trimStr req.email) = none →
      (loginUser req store now).compareCalls = [(req.password, decoyDigest)]) ∧
    (∀ u, findByEmailCI store (trimStr req.email) = some u →
      (loginUser req store now).compareCalls = [(req.password, u.password)]) := by
  have hguard : (req.email.isEmpty || req.password.isEmpty) = false := by
    rw [isEmpty_false_of_ne hemail, isEmpty_false_of_ne hpw]
    rfl
  constructor
  · intro hfind
    unfold loginUser
    rw [if_neg (by simp [hguard])]
    simp only [hfind]
  · intro u hfind
    unfold loginUser
    rw [if_neg (by simp [hguard])]
    simp only [hfind]
    split <;> rfl

/-- Claim C3 witness: at a concrete store holding alice, a login with an
unknown email compares against the decoy digest, and a login with
alice's email compares against alice's stored digest. -/
theorem C3_decoy_compare_always_runs_witness :
    (loginUser ⟨"b@x.com".toList, "wrong".toList⟩ aliceStore 0).compareCalls
      = [("wrong".toList, decoyDigest)] ∧
    (loginUser ⟨"a@x.com".toList, "wrong".toList⟩ aliceStore 0).compareCalls
      = [("wrong".toList, aliceRow.password)] := by
  have h1 := C3_decoy_compare_always_runs ⟨"b@x.com".toList, "wrong".toList⟩
    aliceStore 0 (by decide) (by decide)
  have h2 := C3_decoy_compare_always_runs ⟨"a@x.com".toList, "wrong".toList⟩
    aliceStore 0 (by decide) (by decide)
  exact ⟨h1.1 (by decide), h2.2 aliceRow (by decide)⟩

/-- Claim C5: a login carrying the correct password of an existing active
user succeeds: status 200, a body holding the public projection and the
issued token, where the projection consists exactly of id, email,
username, role and created_at and is independent of the stored password
digest (no password field in the returned structure). -/
theorem C5_login_success
    (req : LoginRequest) (store : UserStore) (now : Nat) (u : UserRow)
    (hemail : req.email ≠ []) (hpw : req.password ≠ [])
    (hfind : findByEmailCI store (trimStr req.email) = some u)
    (hactive : u.status = "active".toList)
    (hcmp : bcryptCompare req.password u.password = true) :
    (loginUser req store now).status = 200 ∧
    (loginUser req store now).body
      = .ok ("Login successful".toList) (sanitizeUser u)
          (jwtSign ⟨u.id, some u.email, some u.role⟩ JWT_SECRET 3600 Alg.HS256 now) ∧
    sanitizeUser u = ⟨u.id, u.email, u.username, u.role, u.created_at⟩ ∧
    (∀ p : Str, sanitizeUser { u with password := p } = sanitizeUser u) := by
  have hguard : (req.email.isEmpty || req.password.isEmpty) = false := by
    rw [isEmpty_false_of_ne hemail, isEmpty_false_of_ne hpw]
    rfl
  refine ⟨?_, ?_, rfl, fun p => rfl⟩ <;>
    · unfold loginUser
      rw [if_neg (by simp [hguard])]
      simp only [hfind]
      rw [if_neg (by rw [hcmp]; simp)]
      try rfl

/-- Claim C5 witness: alice logs in with her correct password (email in a
different case) and receives a 200 with her projection and a token. -/
theorem C5_login_success_witness :
    (loginUser ⟨"A@X.com".toList, "Passw0rd1".toList⟩ aliceStore 0).status = 200 ∧
    (loginUser ⟨"A@X.com".toList, "Passw0rd1".toList⟩ aliceStore 0).body
      = .ok ("Login successful".toList) (sanitizeUser aliceRow) aliceToken := by
  have h := C5_login_success ⟨"A@X.com".toList, "Passw0rd1".toList⟩ aliceStore 0 aliceRow
    (by decide) (by decide) (by decide) (by decide) (by decide)
  exact ⟨h.1, h.2.1⟩

/-- Claim C4: a registration request failing validation (email failing
the address pattern, username or password empty after trimming, password
shorter than 8 characters, or password lacking a digit or an uppercase
letter) is rejected with a 400 validation response, performs no store
access at all, and leaves the store unchanged. -/
theorem C4_invalid_input_no_store_access
    (req : RegisterRequest) (store : UserStore) (nid now : Nat)
    (h : specInvalidInput req) :
    (registerUser req store nid now).status = 400 ∧
    (registerUser req store nid now).body.isErr = true ∧
    (registerUser req store nid now).storeAccesses = 0 ∧
    (registerUser req store nid now).store = store := by
  unfold registerUser registerPhases
  split_ifs with g1 g2 g3 g4 g5
  · exact ⟨rfl, rfl, rfl, rfl⟩
  · exact ⟨rfl, rfl, rfl, rfl⟩
  · exact ⟨rfl, rfl, rfl, rfl⟩
  · exact ⟨rfl, rfl, rfl, rfl⟩
  · exact absurd h (not_specInvalid_of_guards g1 g2 g3 g4)
  · exact absurd h (not_specInvalid_of_guards g1 g2 g3 g4)

/-- Claim C4 witness: a registration with a too-short password is
rejected with a 400, no store access, and an unchanged store. -/
theorem C4_invalid_input_no_store_access_witness :
    specInvalidInput ⟨"a@x.com".toList, "short".toList, "alice".toList⟩ ∧
    (registerUser ⟨"a@x.com".toList, "short".toList, "alice".toList⟩ aliceStore 5 9).status = 400 ∧
    (registerUser ⟨"a@x.com".toList, "short".toList, "alice".toList⟩ aliceStore 5 9).storeAccesses = 0 ∧
    (registerUser ⟨"a@x.com".toList, "short".toList, "alice".toList⟩ aliceStore 5 9).store = aliceStore := by
  have h := C4_invalid_input_no_store_access ⟨"a@x.com".toList, "short".toList, "alice".toList⟩
    aliceStore 5 9 (by decide)
  exact ⟨by decide, h.1, h.2.2.1, h.2.2.2⟩

/-- Unfolding lemma for `jwtVerify` on a structurally well-formed token. -/
theorem jwtVerify_tok (t : Token) (secret : Str) (allowed : List Alg) (now : Nat) :
    jwtVerify (.tok t) secret allowed now =
      (if t.alg ∉ allowed then .error .jsonWebTokenError
       else if t.sig ≠ (⟨secret, t.alg, t.claims⟩ : Sig) then .error .jsonWebTokenError
       else if t.claims.exp < now then .error .tokenExpired
       else .ok t.claims) := rfl

/-- Claim C6: the middleware verifies with the algorithm list pinned to
HS256 — a token whose embedded algorithm field is anything else is
rejected as malformed even if correctly signed under that algorithm —
and classifies outcomes: an invalid signature or undecodable blob is
`JsonWebTokenError` (mapped by the catch block to 401 MALFORMED_TOKEN),
a correctly signed HS256 token whose expiry has passed is
`TokenExpiredError` (mapped to 401 TOKEN_EXPIRED), and a correctly
signed unexpired token verifies to its claim set. -/
theorem C6_verify_pins_algorithm_and_classifies :
    (∀ (t : Token) (now : Nat), t.alg ≠ Alg.HS256 →
      verifyTokenPinned (.tok t) now = .error .jsonWebTokenError) ∧
    (∀ (t : Token) (now : Nat), t.sig ≠ (⟨JWT_SECRET, t.alg, t.claims⟩ : Sig) →
      verifyTokenPinned (.tok t) now = .error .jsonWebTokenError) ∧
    (∀ now : Nat, verifyTokenPinned .malformedBlob now = .error .jsonWebTokenError) ∧
    (∀ (t : Token) (now : Nat), t.alg = Alg.HS256 →
      t.sig = (⟨JWT_SECRET, Alg.HS256, t.claims⟩ : Sig) → t.claims.exp < now →
      verifyTokenPinned (.tok t) now = .error .tokenExpired) ∧
    (∀ (t : Token) (now : Nat), t.alg = Alg.HS256 →
      t.sig = (⟨JWT_SECRET, Alg.HS256, t.claims⟩ : Sig) → now ≤ t.claims.exp →
      verifyTokenPinned (.tok t) now = .ok t.claims) ∧
    classifyCatch .tokenExpired
      = .errorResp 401 ("TOKEN_EXPIRED".toList) ("Session expired. Please login again.".toList) ∧
    classifyCatch .jsonWebTokenError
      = .errorResp 401 ("MALFORMED_TOKEN".toList) ("Invalid or expired token".toList) := by
  refine ⟨?_, ?_, fun now => rfl, ?_, ?_, rfl, rfl⟩
  · intro t now h
    unfold verifyTokenPinned
    rw [jwtVerify_tok, if_pos (by simp [h])]
  · intro t now h
    by_cases hmem : t.alg ∈ [Alg.HS256]
    · unfold verifyTokenPinned
      rw [jwtVerify_tok, if_neg (not_not_intro hmem), if_pos h]
    · unfold verifyTokenPinned
      rw [jwtVerify_tok, if_pos hmem]
  · intro t now halg hsig hexp
    unfold verifyTokenPinned
    rw [jwtVerify_tok, if_neg (not_not_intro (by simp [halg])),
      if_neg (not_not_intro (by rw [halg]; exact hsig)), if_pos hexp]
  · intro t now halg hsig hle
    unfold verifyTokenPinned
    rw [jwtVerify_tok, if_neg (not_not_intro (by simp [halg])),
      if_neg (not_not_intro (by rw [halg]; exact hsig)), if_neg (Nat.not_lt.mpr hle)]

/-- Claim C6 witness: a token correctly signed under HS512 is rejected as
malformed (the embedded algorithm is not trusted); alice's HS256 token
is rejected as expired after its expiry and verifies to its claim set
before it. -/
theorem C6_verify_pins_algorithm_and_classifies_witness :
    verifyTokenPinned
        (.tok (jwtSign ⟨1, none, none⟩ JWT_SECRET 3600 Alg.HS512 0)) 0
      = .error .jsonWebTokenError ∧
    verifyTokenPinned (.tok aliceToken) 5000 = .error .tokenExpired ∧
    verifyTokenPinned (.tok aliceToken) 100 = .ok aliceToken.claims := by
  have h := C6_verify_pins_algorithm_and_classifies
  exact ⟨h.1 (jwtSign ⟨1, none, none⟩ JWT_SECRET 3600 Alg.HS512 0) 0 (by decide),
    h.2.2.2.1 aliceToken 5000 rfl rfl (by decide),
    h.2.2.2.2.1 aliceToken 100 rfl rfl (by decide)⟩

/-- Claim C7 (code bug): the Session Guard never attaches a resolved
identity and never reports UserInactive, because `User.findByPk` does
not exist on the `User` model (`src/models/User.js` defines only
`create` and `findByEmail`), so every request whose token verifies
raises a `TypeError` that the catch block maps to 401 INVALID_TOKEN.
Concretely, a correctly signed unexpired token for the stored active
user alice is answered with 401 INVALID_TOKEN instead of proceeding
with her identity attached. -/
theorem C7_guard_never_resolves_user :
    (∀ (rateLimited : Bool) (header : AuthHeader) (store : UserStore) (now : Nat),
      GuardResult.isProceed (authMiddleware rateLimited header store now) = false) ∧
    authMiddleware false (.bearer (.tok aliceToken)) aliceStore 0
      = .errorResp 401 ("INVALID_TOKEN".toList) ("Invalid or expired token".toList) := by
  constructor
  · intro rateLimited header store now
    cases rateLimited with
    | true => rfl
    | false =>
      cases header with
      | missing => rfl
      | notBearer => rfl
      | bearer c =>
        obtain ⟨e, he⟩ := guardTry_errs c store now
        unfold authMiddleware
        rw [if_neg (by simp)]
        simp only [he]
        cases e <;> rfl
  · rfl

/-- Claim C8 counterexample: the claim states that every issued session
token — including the Session Guard's near-expiry replacement — encodes
the full claim set with the subject's role; but the replacement token
the guard signs carries no role claim (the payload is `{ id: user.id }`
only), refuting the claim at a concrete input. -/
theorem C8_refresh_token_omits_role_counterexample :
    (refreshToken 7 100).claims.role = none ∧
    (refreshToken 7 100).sig.secret = JWT_SECRET := ⟨rfl, rfl⟩

/-- Claim C8 (amended): tokens issued at registration and at login are
signed with the process-wide secret and encode
subject id, email, role, issued-at and expires-at (ttl 3600s); the
Session Guard's near-expiry replacement is signed with the same secret
but encodes only subject id, issued-at and expires-at, omitting role. -/
theorem C8_issued_token_claims :
    (∀ (req : RegisterRequest) (store : UserStore) (nid now : Nat) (m : Str)
        (u : SanitizedUser) (tok : Token),
      (registerUser req store nid now).body = .ok m u tok →
      tok.sig = (⟨JWT_SECRET, Alg.HS256, tok.claims⟩ : Sig) ∧
      tok.claims = ⟨u.id, some u.email, some u.role, now, now + 3600⟩) ∧
    (∀ (req : LoginRequest) (store : UserStore) (now : Nat) (m : Str)
        (u : SanitizedUser) (tok : Token),
      (loginUser req store now).body = .ok m u tok →
      tok.sig = (⟨JWT_SECRET, Alg.HS256, tok.claims⟩ : Sig) ∧
      tok.claims = ⟨u.id, some u.email, some u.role, now, now + 3600⟩) ∧
    (∀ (uid now : Nat),
      (refreshToken uid now).sig
        = (⟨JWT_SECRET, Alg.HS256, (refreshToken uid now).claims⟩ : Sig) ∧
      (refreshToken uid now).claims = ⟨uid, none, none, now, now + 3600⟩) := by
  refine ⟨?_, ?_, fun uid now => ⟨rfl, rfl⟩⟩
  · intro req store nid now m u tok h
    have heq := register_success_eq (register_ok_of_body h)
    rw [heq] at h
    injection h with hm hu ht
    subst hu
    subst ht
    exact ⟨rfl, rfl⟩
  · intro req store now m u tok h
    unfold loginUser at h
    split at h
    · exact absurd h (by simp)
    · split at h
      · exact absurd h (by simp)
      · split at h
        · exact absurd h (by simp)
        · injection h with hm hu ht
          subst hu
          subst ht
          exact ⟨rfl, rfl⟩

/-- Claim C8 witness: the token issued for alice's registration is signed
with the process secret and carries her id, email and role; the guard's
replacement token is signed with the same secret but with no role. -/
theorem C8_issued_token_claims_witness :
    aliceToken.sig = (⟨JWT_SECRET, Alg.HS256, aliceToken.claims⟩ : Sig) ∧
    aliceToken.claims
      = ⟨(sanitizeUser aliceRow).id, some (sanitizeUser aliceRow).email,
         some (sanitizeUser aliceRow).role, 0, 0 + 3600⟩ ∧
    (refreshToken 7 100).claims = ⟨7, none, none, 100, 100 + 3600⟩ := by
  have h := C8_issued_token_claims
  have hreg := h.1 regReq1 [] 1 0 ("User registered successfully".toList)
    (sanitizeUser aliceRow) aliceToken (by decide)
  exact ⟨hreg.1, hreg.2, (h.2.2 7 100).2⟩

/-- Claim C9 counterexample: the claim states that every user lookup in
the core is case-insensitive, but `User.findByEmail` compares emails
exactly: with alice (stored email all lowercase) in the store, looking
her up with one letter upcased misses while the exact-case lookup
finds her. -/
theorem C9_lookup_case_sensitivity_counterexample :
    lowerStr ("A@x.com".toList) = lowerStr ("a@x.com".toList) ∧
    findByEmailExact aliceStore ("A@x.com".toList) = none ∧
    findByEmailExact aliceStore ("a@x.com".toList) = some aliceRow :=
  ⟨by decide, rfl, rfl⟩

/-- Claim C9 (amended): the registration duplicate check and the login
lookup are case-insensitive on email and username — inputs equal up to
letter case give identical results — but `User.findByEmail` (and the
forgot-password lookup built on it) compares the stored email exactly:
it can only return a row whose email equals the argument verbatim. -/
theorem C9_lookups_case_insensitivity :
    (∀ (store : UserStore) (e1 e2 un1 un2 : Str),
      lowerStr e1 = lowerStr e2 → lowerStr un1 = lowerStr un2 →
      findByEmailOrUsernameCI store e1 un1 = findByEmailOrUsernameCI store e2 un2) ∧
    (∀ (store : UserStore) (e1 e2 : Str),
      lowerStr e1 = lowerStr e2 →
      findByEmailCI store e1 = findByEmailCI store e2) ∧
    (∀ (store : UserStore) (e : Str) (u : UserRow),
      findByEmailExact store e = some u → u.email = e) := by
  refine ⟨?_, ?_, ?_⟩
  · intro store e1 e2 un1 un2 h1 h2
    unfold findByEmailOrUsernameCI
    apply List.filter_congr
    intro u _
    unfold lowerEq
    rw [h1, h2]
  · intro store e1 e2 h1
    unfold findByEmailCI
    congr 1
    apply List.filter_congr
    intro u _
    unfold lowerEq
    rw [h1]
  · intro store e u h
    unfold findByEmailExact at h
    cases hl : store.filter (fun v => v.email == e) with
    | nil => rw [hl] at h; exact absurd h (by simp)
    | cons a t =>
      rw [hl] at h
      have ha : a ∈ store.filter (fun v => v.email == e) := by
        rw [hl]
        exact List.mem_cons_self a t
      have hpred := (List.mem_filter.mp ha).2
      have hau : a = u := by
        injection h
      subst hau
      exact beq_iff_eq.mp hpred

/-- Claim C9 witness: the login lookup finds alice under a fully upcased
email exactly as under the stored case, and the exact-match lookup only
returns rows whose email is verbatim equal. -/
theorem C9_lookups_case_insensitivity_witness :
    findByEmailCI aliceStore ("A@X.COM".toList) = findByEmailCI aliceStore ("a@x.com".toList) ∧
    findByEmailOrUsernameCI aliceStore ("a@x.com".toList) ("ALICE".toList)
      = findByEmailOrUsernameCI aliceStore ("a@x.com".toList) ("alice".toList) ∧
    aliceRow.email = "a@x.com".toList := by
  have h := C9_lookups_case_insensitivity
  exact ⟨h.2.1 aliceStore ("A@X.COM".toList) ("a@x.com".toList) (by decide),
    h.1 aliceStore ("a@x.com".toList) ("a@x.com".toList) ("ALICE".toList) ("alice".toList)
      rfl (by decide),
    h.2.2 aliceStore ("a@x.com".toList) aliceRow (by decide)⟩

/-- Claim C10: on every successful registration the persisted row (and
therefore the returned projection, which mirrors it) carries the
lowercased trimmed form of the submitted email, while the username is
persisted trimmed with its original character case preserved. -/
theorem C10_registration_normalizes_email_preserves_username_case
    (req : RegisterRequest) (store : UserStore) (nid now : Nat)
    (m : Str) (u : SanitizedUser) (tok : Token)
    (h : (registerUser req store nid now).body = .ok m u tok) :
    u.email = lowerStr (trimStr req.email) ∧
    u.username = trimStr req.username ∧
    (registerUser req store nid now).store
      = store ++ [mkUserRow nid (lowerStr (trimStr req.email)) (trimStr req.username)
          (bcryptHash req.password) ("user".toList) now] := by
  have heq := register_success_eq (register_ok_of_body h)
  rw [heq] at h
  injection h with hm hu ht
  subst hu
  exact ⟨rfl, rfl, by rw [heq]; rfl⟩

/-- Claim C10 witness: registering with email `' A@X.com '` and username
`'bob'` persists email `'a@x.com'` and username `'bob'` unchanged. -/
theorem C10_registration_normalizes_witness :
    (sanitizeUser (insertedRow regReq2 1 0)).email = lowerStr (trimStr regReq2.email) ∧
    (sanitizeUser (insertedRow regReq2 1 0)).username = trimStr regReq2.username ∧
    (registerUser regReq2 [] 1 0).store
      = [] ++ [mkUserRow 1 (lowerStr (trimStr regReq2.email)) (trimStr regReq2.username)
          (bcryptHash regReq2.password) ("user".toList) 0] :=
  C10_registration_normalizes_email_preserves_username_case regReq2 [] 1 0
    ("User registered successfully".toList)
    (sanitizeUser (insertedRow regReq2 1 0))
    (jwtSign ⟨(insertedRow regReq2 1 0).id, some (insertedRow regReq2 1 0).email,
      some (insertedRow regReq2 1 0).role⟩ JWT_SECRET 3600 Alg.HS256 0)
    (by decide)

/-- Claim C1 counterexample: the claim fails on both halves in the raced
interleaving (duplicate check against a snapshot missing the first
registration).  First, a duplicate that is only caught by the
uniqueness violation raised during the atomic insert is answered with
500 REGISTRATION_FAILED — a generic internal failure, not the 409
USER_EXISTS conflict the claim requires — shown at concrete requests
sharing the same email up to case.  Second, a raced pair whose
usernames are equal only up to letter case (usernames are persisted
with case preserved while the store UNIQUE constraint compares
exactly), with distinct emails, is not caught at all: the second
registration also returns 201 and a second row is committed. -/
theorem C1_registration_conflict_counterexample :
    (registerUser regReq1 [] 1 0).status = 201 ∧
    lowerStr (trimStr regReq2.email) = lowerStr (trimStr regReq1.email) ∧
    (registerPhases regReq2 [] (registerUser regReq1 [] 1 0).store 2 0).status = 500 ∧
    (registerPhases regReq2 [] (registerUser regReq1 [] 1 0).store 2 0).body
      = .err REGISTRATION_FAILED_BODY ∧
    (registerPhases regReq2 [] (registerUser regReq1 [] 1 0).store 2 0).store
      = (registerUser regReq1 [] 1 0).store ∧
    lowerStr (trimStr regReq3.username) = lowerStr (trimStr regReq1.username) ∧
    (registerPhases regReq3 [] (registerUser regReq1 [] 1 0).store 2 0).status = 201 ∧
    ((registerPhases regReq3 [] (registerUser regReq1 [] 1 0).store 2 0).store).length = 2 := by
  refine ⟨by decide, by decide, by decide, by decide, by decide, by decide, by decide, by decide⟩

/-- Claim C1 (amended): after a registration succeeds, a second valid
registration whose email or username collides case-insensitively is,
when processed sequentially, rejected by the duplicate check with 409
and the single constant USER_EXISTS payload — which names neither
field, so the response never reveals whether email or username
collided — and no second row is created.  In the raced interleaving
(the duplicate check saw a snapshot without the first row) the only
safety net is the store's case-sensitive UNIQUE constraints over the
normalized row: a second registration whose email matches up to case
(emails are persisted lowercased) or whose username matches with
identical case creates no row but fails with the generic 500
REGISTRATION_FAILED rather than UserExists; and a raced pair whose
usernames are equal only up to letter case, with distinct emails,
is not caught at all — it also succeeds with 201 and a second row is
committed. -/
theorem C1_registration_duplicate_rejected
    (r1 r2 : RegisterRequest) (store0 : UserStore) (nid1 nid2 now1 now2 : Nat)
    (h201 : (registerUser r1 store0 nid1 now1).status = 201)
    (hval2 : regValid r2 = true) :
    (lowerStr (trimStr r2.email) = lowerStr (trimStr r1.email) ∨
     lowerStr (trimStr r2.username) = lowerStr (trimStr r1.username) →
      (registerUser r2 (registerUser r1 store0 nid1 now1).store nid2 now2).status = 409 ∧
      (registerUser r2 (registerUser r1 store0 nid1 now1).store nid2 now2).body
        = .err USER_EXISTS_BODY ∧
      (registerUser r2 (registerUser r1 store0 nid1 now1).store nid2 now2).store
        = (registerUser r1 store0 nid1 now1).store) ∧
    (∀ storeCheck : UserStore,
      findByEmailOrUsernameCI storeCheck (trimStr r2.email) (trimStr r2.username) = [] →
      (lowerStr (trimStr r2.email) = lowerStr (trimStr r1.email) ∨
       trimStr r2.username = trimStr r1.username) →
      (registerPhases r2 storeCheck (registerUser r1 store0 nid1 now1).store nid2 now2).status
          = 500 ∧
      (registerPhases r2 storeCheck (registerUser r1 store0 nid1 now1).store nid2 now2).body
          = .err REGISTRATION_FAILED_BODY ∧
      (registerPhases r2 storeCheck (registerUser r1 store0 nid1 now1).store nid2 now2).store
          = (registerUser r1 store0 nid1 now1).store) ∧
    (∀ storeCheck : UserStore,
      findByEmailOrUsernameCI storeCheck (trimStr r2.email) (trimStr r2.username) = [] →
      lowerStr (trimStr r2.username) = lowerStr (trimStr r1.username) →
      trimStr r2.username ≠ trimStr r1.username →
      lowerStr (trimStr r2.email) ≠ lowerStr (trimStr r1.email) →
      (∀ u ∈ store0, u.email ≠ lowerStr (trimStr r2.email) ∧
        u.username ≠ trimStr r2.username) →
      (registerPhases r2 storeCheck (registerUser r1 store0 nid1 now1).store nid2 now2).status
          = 201 ∧
      (registerPhases r2 storeCheck (registerUser r1 store0 nid1 now1).store nid2 now2).store
          = (registerUser r1 store0 nid1 now1).store ++ [insertedRow r2 nid2 now2]) := by
  have heq := register_success_eq h201
  have hstore : (registerUser r1 store0 nid1 now1).store
      = store0 ++ [insertedRow r1 nid1 now1] := by rw [heq]
  have hrow1email : (insertedRow r1 nid1 now1).email = lowerStr (trimStr r1.email) := rfl
  have hrow1user : (insertedRow r1 nid1 now1).username = trimStr r1.username := rfl
  refine ⟨?_, ?_, ?_⟩
  · intro hcol
    rw [hstore]
    unfold registerUser
    rw [register_valid_unfold hval2]
    rw [if_pos]
    · exact ⟨rfl, rfl, rfl⟩
    · have hmem : insertedRow r1 nid1 now1 ∈
          findByEmailOrUsernameCI (store0 ++ [insertedRow r1 nid1 now1])
            (trimStr r2.email) (trimStr r2.username) := by
        apply List.mem_filter.mpr
        refine ⟨by simp, ?_⟩
        unfold lowerEq
        rcases hcol with hc | hc
        · apply Bool.or_eq_true_iff.mpr
          left
          rw [hrow1email, lowerStr_idem, hc]
          exact beq_self_eq_true _
        · apply Bool.or_eq_true_iff.mpr
          right
          rw [hrow1user, hc]
          exact beq_self_eq_true _
      rw [isEmpty_false_of_ne (List.ne_nil_of_mem hmem)]
      rfl
  · intro storeCheck hchk hexact
    rw [hstore, register_valid_unfold hval2, if_neg (by simp [hchk])]
    have hcoll : (List.any (store0 ++ [insertedRow r1 nid1 now1]) fun u =>
        u.email == lowerStr (trimStr r2.email) || u.username == trimStr r2.username) = true := by
      apply List.any_eq_true.mpr
      refine ⟨insertedRow r1 nid1 now1, by simp, ?_⟩
      apply Bool.or_eq_true_iff.mpr
      rcases hexact with hem | hun
      · left
        rw [hrow1email, hem]
        exact beq_self_eq_true _
      · right
        rw [hrow1user, hun]
        exact beq_self_eq_true _
    unfold insertUser
    rw [if_pos hcoll]
    exact ⟨rfl, rfl, rfl⟩
  · intro storeCheck hchk hciu hneu hnee hstore0
    rw [hstore, register_valid_unfold hval2, if_neg (by simp [hchk])]
    have hnocoll : (List.any (store0 ++ [insertedRow r1 nid1 now1]) fun u =>
        u.email == lowerStr (trimStr r2.email) || u.username == trimStr r2.username) = false := by
      rw [List.any_eq_false]
      intro u hu
      rcases List.mem_append.mp hu with hu0 | hu1
      · obtain ⟨he, hn⟩ := hstore0 u hu0
        simp [beq_false_of_ne he, beq_false_of_ne hn]
      · have hu1eq : u = insertedRow r1 nid1 now1 := by simpa using hu1
        subst hu1eq
        have he : (insertedRow r1 nid1 now1).email ≠ lowerStr (trimStr r2.email) := by
          rw [hrow1email]
          exact fun hh => hnee hh.symm
        have hn : (insertedRow r1 nid1 now1).username ≠ trimStr r2.username := by
          rw [hrow1user]
          exact fun hh => hneu hh.symm
        simp [beq_false_of_ne he, beq_false_of_ne hn]
    unfold insertUser
    rw [if_neg (by simp [hnocoll])]
    exact ⟨rfl, rfl⟩

/-- Claim C1 witness: alice registers; bob reusing alice's email in a
different case is rejected 409 by the sequential duplicate check and
fails 500 with no row in the raced interleaving; a racing registration
with username `ALICE` (alice's username up to case) and a distinct
email is not caught — it succeeds with 201 and appends a second row. -/
theorem C1_registration_duplicate_rejected_witness :
    (registerUser regReq1 [] 1 0).status = 201 ∧
    (registerUser regReq2 (registerUser regReq1 [] 1 0).store 2 0).status = 409 ∧
    (registerUser regReq2 (registerUser regReq1 [] 1 0).store 2 0).body
      = .err USER_EXISTS_BODY ∧
    (registerPhases regReq2 [] (registerUser regReq1 [] 1 0).store 2 0).status = 500 ∧
    (registerPhases regReq3 [] (registerUser regReq1 [] 1 0).store 2 0).status = 201 ∧
    (registerPhases regReq3 [] (registerUser regReq1 [] 1 0).store 2 0).store
      = (registerUser regReq1 [] 1 0).store ++ [insertedRow regReq3 2 0] := by
  have h := C1_registration_duplicate_rejected regReq1 regReq2 [] 1 2 0 0
    (by decide) (by decide)
  have h3 := C1_registration_duplicate_rejected regReq1 regReq3 [] 1 2 0 0
    (by decide) (by decide)
  have hA := h.1 (Or.inl (by decide))
  have hB := h.2.1 [] (by decide) (Or.inl (by decide))
  have hC := h3.2.2 [] (by decide) (by decide) (by decide) (by decide)
    (fun u hu => absurd hu (List.not_mem_nil u))
  exact ⟨by decide, hA.1, hA.2.1, hB.1, hC.1, hC.2⟩

end HawalaSend
